import Mathlib

/-!
Verification of the wstunnel client's tunnel-argument parsing, client
configuration construction, and per-flow orchestration (`run_tunnel`),
shallowly embedded from `src/main.rs`.

Rust strings are modelled as Lean `String`s viewed as their character
lists; the command-line arguments concerned are ASCII, where byte
indices and character indices coincide.  Fallible Rust functions
returning `Result<_, io::Error>` become `Except IoError _`; functions
that may additionally panic (out-of-range slicing, `unwrap`) return
`RunResult`.
-/

/-- Kind of a `std::io::Error`.  Rust's `ErrorKind` has many variants;
the source only ever constructs `ErrorKind::InvalidInput`, and the
remaining variants are collapsed into `other` (keeping the type
non-degenerate so that "fails with `InvalidInput`" is an actual
statement). -/
inductive IoErrorKind where
  | invalidInput
  | other
deriving DecidableEq, Repr

/-- Model of `std::io::Error`: a kind plus the formatted message. -/
structure IoError where
  kind : IoErrorKind
  msg : String
deriving DecidableEq, Repr

/-- Outcome of running a Rust function that may return `Ok`, return an
`io::Error`, or panic (e.g. on an out-of-bounds string slice or a failed
`unwrap`). -/
inductive RunResult (α : Type) where
  | ok : α → RunResult α
  | err : IoError → RunResult α
  | panicked : RunResult α
deriving DecidableEq, Repr

/-- Equality of `Except` values is decidable when it is on both
components; used to evaluate the embedded parsers at concrete
arguments. -/
instance {ε α : Type} [DecidableEq ε] [DecidableEq α] : DecidableEq (Except ε α) :=
  fun x y =>
    match x, y with
    | Except.ok a, Except.ok b =>
      if h : a = b then Decidable.isTrue (congrArg Except.ok h)
      else Decidable.isFalse (fun hc => h (Except.ok.inj hc))
    | Except.error a, Except.error b =>
      if h : a = b then Decidable.isTrue (congrArg Except.error h)
      else Decidable.isFalse (fun hc => h (Except.error.inj hc))
    | Except.ok _, Except.error _ => Decidable.isFalse (fun hc => Except.noConfusion hc)
    | Except.error _, Except.ok _ => Decidable.isFalse (fun hc => Except.noConfusion hc)

/-- Model of `std::net::IpAddr`: an IPv4 address as four octets or an
IPv6 address as its eight 16-bit segments. -/
inductive IpAddr where
  | v4 : Nat → Nat → Nat → Nat → IpAddr
  | v6 : List Nat → IpAddr
deriving DecidableEq, Repr

/-- Model of `std::net::SocketAddr`. -/
structure SocketAddr where
  ip : IpAddr
  port : Nat
deriving DecidableEq, Repr

/-- Model of `url::Host<String>`: a registered/opaque domain name, an
IPv4 literal, or an IPv6 literal. -/
inductive UrlHost where
  | domain : String → UrlHost
  | ipv4 : Nat → Nat → Nat → Nat → UrlHost
  | ipv6 : List Nat → UrlHost
deriving DecidableEq, Repr

/-- Model of `LocalProtocol` from `src/main.rs`.  The UDP timeout is a
whole number of seconds (`Duration::from_secs`). -/
inductive LocalProtocol where
  | tcp
  | udp : Option Nat → LocalProtocol
  | stdio
  | socks5
deriving DecidableEq, Repr

/-- Model of `LocalToRemote` from `src/main.rs`.  The Rust field
`local` is named `local_bind` here because `local` is a Lean keyword. -/
structure LocalToRemote where
  socket_so_mark : Option Int
  local_protocol : LocalProtocol
  local_bind : SocketAddr
  remote : UrlHost × Nat
deriving DecidableEq, Repr

/- ### String utilities mirroring the Rust standard library -/

/-- Rust `str::split_once(d)`: split at the first occurrence of the
character `d`, delimiter removed. -/
def splitOnceChars : List Char → Char → Option (List Char × List Char)
  | [], _ => none
  | c :: cs, d =>
    if c = d then some ([], cs)
    else (splitOnceChars cs d).map (fun p => (c :: p.1, p.2))

/-- Rust `str::split_once` with a multi-character pattern (e.g.
`[':', '?']`): split at the first occurrence of any listed character. -/
def splitOnceAnyChars : List Char → List Char → Option (List Char × List Char)
  | [], _ => none
  | c :: cs, ds =>
    if c ∈ ds then some ([], cs)
    else (splitOnceAnyChars cs ds).map (fun p => (c :: p.1, p.2))

/-- Rust `str::trim_start_matches(d)` for a single character `d`. -/
def trimLeadChar : List Char → Char → List Char
  | [], _ => []
  | c :: cs, d => if c = d then trimLeadChar cs d else c :: cs

/-- Auxiliary accumulator for `splitAll`. -/
def splitAllAux : List Char → Char → List Char → List (List Char)
  | [], _, acc => [acc.reverse]
  | c :: cs, d, acc =>
    if c = d then acc.reverse :: splitAllAux cs d []
    else splitAllAux cs d (c :: acc)

/-- Rust `str::split(d)`: all segments between occurrences of `d`. -/
def splitAll (l : List Char) (d : Char) : List (List Char) :=
  splitAllAux l d []

/-- Accumulate a decimal digit list into a number. -/
def digitsToNat : List Char → Nat → Nat
  | [], acc => acc
  | c :: cs, acc => digitsToNat cs (acc * 10 + (c.toNat - '0'.toNat))

/-- Rust `str::parse::<uN>()`: an optional leading `+`, then at least
one decimal digit, value within `bound`. -/
def parseUIntBounded (s : List Char) (bound : Nat) : Option Nat :=
  let t := match s with
    | '+' :: rest => rest
    | _ => s
  if t ≠ [] ∧ t.all Char.isDigit then
    let v := digitsToNat t 0
    if v ≤ bound then some v else none
  else none

/-- Rust `"...".parse::<u16>().ok()` on a character list. -/
def parseU16Chars (s : List Char) : Option Nat :=
  parseUIntBounded s 65535

/-- Rust `str::parse::<u16>().ok()`. -/
def parseU16 (s : String) : Option Nat :=
  parseU16Chars s.data

/-- Rust `str::parse::<u64>().ok()`. -/
def parseU64Str (s : String) : Option Nat :=
  parseUIntBounded s.data (2 ^ 64 - 1)

/-- Rust `str::parse::<i32>().ok()`: optional sign, decimal digits,
value within the `i32` range. -/
def parseI32Str (s : String) : Option Int :=
  match s.data with
  | '-' :: rest =>
    if rest ≠ [] ∧ rest.all Char.isDigit then
      let v := digitsToNat rest 0
      if v ≤ 2 ^ 31 then some (-(v : Int)) else none
    else none
  | l => (parseUIntBounded l (2 ^ 31 - 1)).map Int.ofNat

/-- One octet of an IPv4 literal as accepted by Rust's
`Ipv4Addr::from_str`: decimal digits only, no leading zeros, at most
255. -/
def parseOctet (g : List Char) : Option Nat :=
  if g = [] then none
  else if ¬ g.all Char.isDigit then none
  else if 1 < g.length ∧ g.head? = some '0' then none
  else
    let v := digitsToNat g 0
    if v ≤ 255 then some v else none

/-- Models Rust's `Ipv4Addr::from_str`: exactly four dot-separated
octets. -/
def ipv4FromStr (s : String) : Option (Nat × Nat × Nat × Nat) :=
  match splitAll s.data '.' with
  | [a, b, c, d] => do
    let a' ← parseOctet a
    let b' ← parseOctet b
    let c' ← parseOctet c
    let d' ← parseOctet d
    pure (a', b', c', d')
  | _ => none

/-- Value of a hexadecimal digit. -/
def hexVal (c : Char) : Option Nat :=
  if '0' ≤ c ∧ c ≤ '9' then some (c.toNat - '0'.toNat)
  else if 'a' ≤ c ∧ c ≤ 'f' then some (c.toNat - 'a'.toNat + 10)
  else if 'A' ≤ c ∧ c ≤ 'F' then some (c.toNat - 'A'.toNat + 10)
  else none

/-- One 16-bit group of an IPv6 literal: one to four hex digits. -/
def parseHexGroup (g : List Char) : Option Nat :=
  if 1 ≤ g.length ∧ g.length ≤ 4 then
    g.foldl (fun acc c => do
      let a ← acc
      let h ← hexVal c
      pure (a * 16 + h)) (some 0)
  else none

/-- Split a character list at the first occurrence of `"::"`. -/
def splitDoubleColon : List Char → Option (List Char × List Char)
  | ':' :: ':' :: rest => some ([], rest)
  | c :: rest => (splitDoubleColon rest).map (fun p => (c :: p.1, p.2))
  | [] => none

/-- Parse a colon-separated list of hex groups (no compression). -/
def parseHexGroups (l : List Char) : Option (List Nat) :=
  if l = [] then some []
  else (splitAll l ':').foldr (fun g acc => do
    let gs ← acc
    let v ← parseHexGroup g
    pure (v :: gs)) (some [])

/-- Models Rust's `Ipv6Addr::from_str` for the all-hexadecimal textual
forms: eight colon-separated groups, or two group runs joined by a
single `::` standing for at least one zero group.  The embedded-IPv4
tail form (`::ffff:1.2.3.4`) is not covered; no argument examined by a
claim uses it. -/
def ipv6FromStr (s : String) : Option (List Nat) :=
  match splitDoubleColon s.data with
  | some (l, r) => do
    let ls ← parseHexGroups l
    let rs ← parseHexGroups r
    if ls.length + rs.length ≤ 7 then
      pure (ls ++ List.replicate (8 - (ls.length + rs.length)) 0 ++ rs)
    else none
  | none => do
    let gs ← parseHexGroups s.data
    if gs.length = 8 then pure gs else none

/- ### Rust byte-slice operations, with their panics -/

/-- Rust `&s[..n]` as a `String`: total prefix (callers must separately
establish `n ≤ s.length`). -/
def takeStr (s : String) (n : Nat) : String :=
  ⟨s.data.take n⟩

/-- Rust `&s[n..]` as a `String`: total suffix. -/
def dropStr (s : String) (n : Nat) : String :=
  ⟨s.data.drop n⟩

/-- Rust `&s[..n]`, which panics when `n` is out of range. -/
def sliceTo (s : String) (n : Nat) : Option String :=
  if n ≤ s.data.length then some (takeStr s n) else none

/-- Rust `&s[n..]`, which panics when `n` is out of range. -/
def sliceFrom (s : String) (n : Nat) : Option String :=
  if n ≤ s.data.length then some (dropStr s n) else none

/- ### Model of `Url::parse("fake://" ++ rest)` (url crate) -/

/-- The fields of a parsed URL that `parse_tunnel_dest` reads. -/
structure FakeUrl where
  host : Option UrlHost
  port : Option Nat
  query_pairs : List (String × String)
deriving DecidableEq, Repr

/-- Split a query string into key/value pairs, as
`Url::query_pairs` does: segments between `&`, empty segments skipped,
a segment without `=` yielding an empty value.  Percent- and
plus-decoding are not modelled; no argument examined by a claim uses
them. -/
def queryPairsOf (q : List Char) : List (String × String) :=
  (splitAll q '&').filterMap (fun seg =>
    if seg = [] then none
    else match splitOnceChars seg '=' with
      | none => some (⟨seg⟩, "")
      | some (k, v) => some (⟨k⟩, ⟨v⟩))

/-- Port segment of an authority: empty means no port; otherwise all
decimal digits with value at most 65535, anything else a parse error
(`none` at the outer level). -/
def parseAuthorityPort (ps : List Char) : Option (Option Nat) :=
  if ps = [] then some none
  else if ps.all Char.isDigit then
    let v := digitsToNat ps 0
    if v ≤ 65535 then some (some v) else none
  else none

/-- Models `Url::parse("fake://" ++ rest)` of the `url` crate (WHATWG
rules for the non-special scheme `fake`), restricted to the fields the
source reads.  The authority runs to the first `/`, `?` or `#`; an
optional userinfo ends at the last `@`; a bracketed host is parsed as
an IPv6 literal; any other nonempty host is an opaque host, reported as
`Host::Domain` (non-special schemes perform no IPv4 detection); the
port is the part after the first colon outside brackets.  Forbidden
host code points and percent-encoding are not modelled; no argument
examined by a claim contains them. -/
def parse_fake_url (rest : String) : Option FakeUrl :=
  let cs := rest.data
  let noFrag := cs.takeWhile (fun c => c != '#')
  let auth := noFrag.takeWhile (fun c => c != '/' && c != '?')
  let query := (noFrag.dropWhile (fun c => c != '?')).drop 1
  let hostport := (auth.reverse.takeWhile (fun c => c != '@')).reverse
  match hostport with
  | '[' :: inner =>
    match splitOnceChars inner ']' with
    | none => none
    | some (v6chars, tail) =>
      match ipv6FromStr ⟨v6chars⟩ with
      | none => none
      | some segs =>
        match tail with
        | [] => some ⟨some (UrlHost.ipv6 segs), none, queryPairsOf query⟩
        | ':' :: ps =>
          (parseAuthorityPort ps).map
            (fun p => ⟨some (UrlHost.ipv6 segs), p, queryPairsOf query⟩)
        | _ => none
  | _ =>
    let (h, ps) := (splitOnceChars hostport ':').getD (hostport, [])
    match parseAuthorityPort ps with
    | none => none
    | some p =>
      let host := if h = [] then none else some (UrlHost.domain ⟨h⟩)
      some ⟨host, p, queryPairsOf query⟩

/-- `BTreeMap::get` after `collect()` from the query pairs: the value
of the last pair carrying the key (later inserts overwrite earlier
ones). -/
def optGet (opts : List (String × String)) (k : String) : Option String :=
  opts.foldl (fun acc p => if p.1 = k then some p.2 else acc) none

/- ### The parsers of `src/main.rs` -/

/-- `parse_local_bind` from `src/main.rs`: parse an optional bind
address (bracketed IPv6, dotted IPv4, or nothing, defaulting to
`127.0.0.1`) followed by the bind port, returning the bind socket
address and the unconsumed remainder of the argument. -/
def parse_local_bind (arg : String) : Except IoError (SocketAddr × String) :=
  match
    (if arg.data.head? = some '[' then
      match splitOnceChars arg.data ']' with
      | none =>
        Except.error ⟨IoErrorKind.invalidInput, "cannot parse IPv6 bind from " ++ arg⟩
      | some (ipv6_str, remaining) =>
        match ipv6FromStr ⟨ipv6_str.drop 1⟩ with
        | none =>
          Except.error
            ⟨IoErrorKind.invalidInput,
             "cannot parse IPv6 bind from " ++ (⟨ipv6_str⟩ : String)⟩
        | some segs => Except.ok (IpAddr.v6 segs, remaining)
    else
      match splitOnceChars arg.data ':' with
      | none =>
        Except.error ⟨IoErrorKind.invalidInput, "cannot parse IPv4 bind from " ++ arg⟩
      | some (ipv4_str, remaining) =>
        match ipv4FromStr ⟨ipv4_str⟩ with
        | some (a, b, c, d) => Except.ok (IpAddr.v4 a b c d, remaining)
        | none => Except.ok (IpAddr.v4 127 0 0 1, arg.data)
      : Except IoError (IpAddr × List Char))
  with
  | Except.error e => Except.error e
  | Except.ok (bind, remaining0) =>
    let remaining1 := trimLeadChar remaining0 ':'
    let pr := (splitOnceAnyChars remaining1 [':', '?']).getD (remaining1, [])
    match parseU16Chars pr.1 with
    | none =>
      Except.error
        ⟨IoErrorKind.invalidInput, "cannot parse bind port from " ++ (⟨pr.1⟩ : String)⟩
    | some port => Except.ok (⟨bind, port⟩, ⟨pr.2⟩)

/-- `parse_tunnel_dest` from `src/main.rs`: parse the destination
`host:port` plus query options via `Url::parse("fake://" ++ remaining)`. -/
def parse_tunnel_dest (remaining : String) :
    Except IoError (UrlHost × Nat × List (String × String)) :=
  match parse_fake_url remaining with
  | none =>
    Except.error ⟨IoErrorKind.invalidInput, "cannot parse remote from " ++ remaining⟩
  | some url =>
    match url.host with
    | none =>
      Except.error
        ⟨IoErrorKind.invalidInput, "cannot parse remote host from " ++ remaining⟩
    | some host =>
      match url.port with
      | none =>
        Except.error
          ⟨IoErrorKind.invalidInput, "cannot parse remote port from " ++ remaining⟩
      | some port => Except.ok (host, port, url.query_pairs)

/-- `parse_tunnel_arg` from `src/main.rs`: dispatch on the fixed byte
slices `&arg[..6]`, `&arg[..8]` and `&arg[9..]` (each of which panics
when out of range) and build the `LocalToRemote` for the matched local
protocol. -/
def parse_tunnel_arg (arg : String) : RunResult LocalToRemote :=
  match sliceTo arg 6 with
  | none => RunResult.panicked
  | some p6 =>
    if p6 = "tcp://" then
      match parse_local_bind (dropStr arg 6) with
      | Except.error e => RunResult.err e
      | Except.ok (local_bind, remaining) =>
        match parse_tunnel_dest remaining with
        | Except.error e => RunResult.err e
        | Except.ok (dest_host, dest_port, options) =>
          RunResult.ok
            ⟨(optGet options "socket_so_mark").bind parseI32Str,
             LocalProtocol.tcp, local_bind, (dest_host, dest_port)⟩
    else if p6 = "udp://" then
      match parse_local_bind (dropStr arg 6) with
      | Except.error e => RunResult.err e
      | Except.ok (local_bind, remaining) =>
        match parse_tunnel_dest remaining with
        | Except.error e => RunResult.err e
        | Except.ok (dest_host, dest_port, options) =>
          let timeout :=
            (((optGet options "timeout_sec").bind parseU64Str).map
              (fun d => if d = 0 then none else some d)).getD (some 30)
          RunResult.ok
            ⟨(optGet options "socket_so_mark").bind parseI32Str,
             LocalProtocol.udp timeout, local_bind, (dest_host, dest_port)⟩
    else
      match sliceTo arg 8 with
      | none => RunResult.panicked
      | some p8 =>
        if p8 = "socks5:/" then
          match sliceFrom arg 9 with
          | none => RunResult.panicked
          | some rest9 =>
            match parse_local_bind rest9 with
            | Except.error e => RunResult.err e
            | Except.ok (local_bind, remaining) =>
              match parse_tunnel_dest ("0.0.0.0:0?" ++ remaining) with
              | Except.error e => RunResult.err e
              | Except.ok (dest_host, dest_port, options) =>
                RunResult.ok
                  ⟨(optGet options "socket_so_mark").bind parseI32Str,
                   LocalProtocol.socks5, local_bind, (dest_host, dest_port)⟩
        else if p8 = "stdio://" then
          match parse_tunnel_dest (dropStr arg 8) with
          | Except.error e => RunResult.err e
          | Except.ok (dest_host, dest_port, options) =>
            RunResult.ok
              ⟨(optGet options "socket_so_mark").bind parseI32Str,
               LocalProtocol.stdio, ⟨IpAddr.v4 0 0 0 0, 0⟩, (dest_host, dest_port)⟩
        else
          RunResult.err
            ⟨IoErrorKind.invalidInput, "Invalid local protocol for tunnel " ++ arg⟩

/- ### Client configuration (`src/main.rs`, `main` and `WsClientConfig`) -/

/-- Result of `Url::parse` for the server URL, restricted to the fields
the source reads.  For the special schemes `ws`/`wss` the url crate
performs full host parsing, so the host may be a domain or an IP
literal. -/
structure UrlModel where
  scheme : String
  host : Option UrlHost
  port : Option Nat
deriving DecidableEq, Repr

/-- Whether rustls accepts a string as a DNS server name.  Approximates
`rustls::server::DnsName::try_from`: dot-separated labels of at most 63
alphanumeric-or-hyphen characters, no leading or trailing hyphen, total
length at most 253, final label not all-numeric. -/
def validDnsLabel (l : List Char) : Bool :=
  !l.isEmpty && l.length ≤ 63 && l.all (fun c => c.isAlphanum || c == '-')
    && l.head? != some '-' && l.getLast? != some '-'

/-- See `validDnsLabel`. -/
def dnsNameValid (s : String) : Bool :=
  let labels := splitAll s.data '.'
  s.data.length ≤ 253 && !labels.isEmpty && labels.all validDnsLabel
    && (match labels.getLast? with
        | some l => !(l.all Char.isDigit)
        | none => false)

/-- Model of `rustls::server::DnsName`: a string that passed
`dns_name_try_from`. -/
structure DnsName where
  name : String
deriving DecidableEq, Repr

/-- Models `DnsName::try_from` (rustls). -/
def dns_name_try_from (s : String) : Option DnsName :=
  if dnsNameValid s then some ⟨s⟩ else none

/-- Model of `rustls::ServerName`. -/
inductive ServerName where
  | dnsName : DnsName → ServerName
  | ipAddress : IpAddr → ServerName
deriving DecidableEq, Repr

/-- Model of `TlsClientConfig` from `src/main.rs`. -/
structure TlsClientConfig where
  tls_sni_override : Option DnsName
  tls_verify_certificate : Bool
deriving DecidableEq, Repr

/-- Model of `WsClientConfig` from `src/main.rs`, restricted to the
fields a claim reads (the HTTP upgrade path, credentials and headers
are carried opaquely by the source and read by no claim). -/
structure WsClientConfig where
  remote_addr : UrlHost × Nat
  tls : Option TlsClientConfig
  timeout_connect : Nat
  websocket_ping_frequency : Nat
  websocket_mask_frame : Bool
deriving DecidableEq, Repr

/-- `parse_server_url` from `src/main.rs`.  `parsed` is the outcome of
`Url::parse(arg)` (`none` for a parse failure); the source then rejects
any scheme other than `ws`/`wss` and any URL without a host. -/
def parse_server_url : Option UrlModel → String → Except IoError UrlModel
  | none, arg => Except.error ⟨IoErrorKind.invalidInput, "cannot parse server url " ++ arg⟩
  | some url, arg =>
    if url.scheme ≠ "ws" ∧ url.scheme ≠ "wss" then
      Except.error ⟨IoErrorKind.invalidInput, "invalid scheme " ++ url.scheme⟩
    else if url.host = none then
      Except.error ⟨IoErrorKind.invalidInput, "invalid server host " ++ arg⟩
    else Except.ok url

/-- The `tls` value `main` builds for the client from the remote URL
scheme (`src/main.rs`, `Commands::Client` arm): `ws` means no TLS,
`wss` means TLS with the CLI's SNI override and verification flag, and
any other scheme panics. -/
def client_tls (scheme : String) (sni : Option DnsName) (verify : Bool) :
    RunResult (Option TlsClientConfig) :=
  if scheme = "ws" then RunResult.ok none
  else if scheme = "wss" then RunResult.ok (some ⟨sni, verify⟩)
  else RunResult.panicked

/-- `WsClientConfig::websocket_scheme` from `src/main.rs`. -/
def WsClientConfig.websocket_scheme (c : WsClientConfig) : String :=
  match c.tls with
  | none => "ws"
  | some _ => "wss"

/-- `WsClientConfig::tls_server_name` from `src/main.rs`: the SNI
override when TLS is configured with one, otherwise a name derived from
the remote host.  The source `unwrap`s the `DnsName` conversion of a
domain host, so a failing conversion is a panic. -/
def WsClientConfig.tls_server_name (c : WsClientConfig) : RunResult ServerName :=
  match c.tls.bind (fun tls => tls.tls_sni_override) with
  | none =>
    match c.remote_addr.1 with
    | UrlHost.domain d =>
      match dns_name_try_from d with
      | some dn => RunResult.ok (ServerName.dnsName dn)
      | none => RunResult.panicked
    | UrlHost.ipv4 a b c' d => RunResult.ok (ServerName.ipAddress (IpAddr.v4 a b c' d))
    | UrlHost.ipv6 segs => RunResult.ok (ServerName.ipAddress (IpAddr.v6 segs))
  | some sni_override => RunResult.ok (ServerName.dnsName sni_override)

/- ### The accept loop `run_tunnel` and the local adapters -/

/-- One item of an adapter stream: an abstract handle to the accepted
local duplex plus the destination paired with it. -/
structure TunnelFlow where
  conn : Nat
  dest : UrlHost × Nat
deriving DecidableEq, Repr

/-- The client's TCP adapter (`src/main.rs`, `LocalProtocol::Tcp` arm
of `main`): `tcp::run_server`'s stream of accept results with every
successful connection paired with the tunnel's fixed `remote`
(`map_ok(|stream| (stream.into_split(), remote.clone()))`); error items
pass through. -/
def tcp_adapter (remote : UrlHost × Nat) (accepts : List (Except String Nat)) :
    List (Except String TunnelFlow) :=
  accepts.map (fun r => r.map (fun c => ⟨c, remote⟩))

/-- The client's UDP adapter (`LocalProtocol::Udp` arm of `main`): like
TCP, every successful virtual flow is paired with the fixed `remote`. -/
def udp_adapter (remote : UrlHost × Nat) (accepts : List (Except String Nat)) :
    List (Except String TunnelFlow) :=
  accepts.map (fun r => r.map (fun c => ⟨c, remote⟩))

/-- The client's SOCKS5 adapter (`LocalProtocol::Socks5` arm of
`main`): `socks5::run_server` yields each negotiated connection
together with the destination requested by the SOCKS5 client
(`map_ok(|(stream, remote_dest)| ...)`). -/
def socks5_adapter (accepts : List (Except String (Nat × (UrlHost × Nat)))) :
    List (Except String TunnelFlow) :=
  accepts.map (fun r => r.map (fun p => ⟨p.1, p.2⟩))

/-- The client's STDIO adapter (`LocalProtocol::Stdio` arm of `main`):
`stream::once(async move { Ok((server, tunnel.remote)) })`, a
single-item stream pairing the stdio duplex with the tunnel's
configured remote. -/
def stdio_adapter (remote : UrlHost × Nat) (conn : Nat) :
    List (Except String TunnelFlow) :=
  [Except.ok ⟨conn, remote⟩]

/-- The flows `run_tunnel` (`src/main.rs`) spawns a tunnel task for:
the loop `while let Some(Ok((cnx_stream, remote_dest))) = next()` mints
a fresh time-ordered request id per successful item (modelled as
successive numbers starting at `nextId`), clones the tunnel spec with
`tunnel.remote = remote_dest`, and spawns `connect_to_server`; the loop
ends at the first `Err` item (the `Some(Ok(..))` pattern fails) and at
the end of the stream, in both cases returning `Ok(())`.  Each spawned
entry is (request id, cloned spec, connection handle). -/
def run_tunnel_spawned (tunnel : LocalToRemote)
    (incoming : List (Except String TunnelFlow)) (nextId : Nat) :
    List (Nat × LocalToRemote × Nat) :=
  match incoming with
  | [] => []
  | Except.ok f :: rest =>
    (nextId, { tunnel with remote := f.dest }, f.conn)
      :: run_tunnel_spawned tunnel rest (nextId + 1)
  | Except.error _ :: _ => []

/-- The per-flow error log of `run_tunnel`: each spawned task runs
`connect_to_server` inside a tracing span carrying its request id and
logs the error, if any, within that span (`error!("{:?}", ret)`),
without affecting the accept loop.  `connect` abstracts
`connect_to_server`'s outcome for a given request id, cloned spec and
connection. -/
def run_tunnel_logs (connect : Nat → LocalToRemote → Nat → Except String Unit)
    (spawned : List (Nat × LocalToRemote × Nat)) : List (Nat × String) :=
  spawned.filterMap (fun e =>
    match connect e.1 e.2.1 e.2.2 with
    | Except.ok _ => none
    | Except.error msg => some (e.1, msg))

/- ### Helper lemmas -/

/-- Rebuilding a string from its characters is the identity. -/
theorem stringEta (s : String) : String.mk s.data = s := rfl

/-- `(a ++ b).data` is the concatenation of the character lists. -/
theorem strDataAppend (a b : String) : (a ++ b).data = a.data ++ b.data := by
  cases a; cases b; rfl

/-- `split_once` at the first occurrence of the separator. -/
theorem splitOnceChars_append (p : List Char) (d : Char) (rest : List Char)
    (h : d ∉ p) : splitOnceChars (p ++ d :: rest) d = some (p, rest) := by
  induction p with
  | nil => simp [splitOnceChars]
  | cons c cs ih =>
    have hc : ¬ c = d := fun hc => h (by subst hc; exact List.mem_cons_self c cs)
    have ih' := ih (fun hm => h (List.mem_cons_of_mem _ hm))
    simp [splitOnceChars, hc, ih']

/-- `split_once` with a character-set pattern at the first occurrence. -/
theorem splitOnceAnyChars_append (p ds : List Char) (d : Char) (rest : List Char)
    (hp : ∀ c ∈ p, c ∉ ds) (hd : d ∈ ds) :
    splitOnceAnyChars (p ++ d :: rest) ds = some (p, rest) := by
  induction p with
  | nil => simp [splitOnceAnyChars, hd]
  | cons c cs ih =>
    have hc := hp c (List.mem_cons_self c cs)
    have ih' := ih (fun x hx => hp x (List.mem_cons_of_mem _ hx))
    simp [splitOnceAnyChars, hc, ih']

/-- `trim_start_matches` is the identity when the head differs. -/
theorem trimLeadChar_of_head_ne (l : List Char) (d : Char)
    (h : l.head? ≠ some d) : trimLeadChar l d = l := by
  cases l with
  | nil => rfl
  | cons c cs =>
    simp only [trimLeadChar]
    rw [if_neg (fun hc => h (by simp [hc]))]

/-- A prefix slice of length 8 yields the length-6 prefix slice by
truncation. -/
theorem sliceTo_six_of_eight (arg s : String) (h : sliceTo arg 8 = some s) :
    sliceTo arg 6 = some (takeStr s 6) ∧ 8 ≤ arg.data.length := by
  unfold sliceTo at h ⊢
  by_cases hl : 8 ≤ arg.data.length
  · rw [if_pos hl] at h
    injection h with h
    refine ⟨?_, hl⟩
    rw [if_pos (by omega)]
    subst h
    unfold takeStr
    congr 1
    rw [List.take_take]
    norm_num
  · rw [if_neg hl] at h
    exact absurd h (by simp)

/-- A sample tunnel specification used to instantiate witnesses. -/
def sampleTunnel : LocalToRemote :=
  ⟨none, LocalProtocol.tcp, ⟨IpAddr.v4 127 0 0 1, 7000⟩,
   (UrlHost.domain "example.com", 443)⟩

/-- Every entry spawned from a stream whose successful items all carry
the fixed destination `t.remote` is the unmodified spec `t`. -/
theorem run_tunnel_spawned_fixed (t : LocalToRemote) :
    ∀ (items : List (Except String Nat)) (n : Nat) (e : Nat × LocalToRemote × Nat),
      e ∈ run_tunnel_spawned t
          (items.map (fun r => r.map (fun c => (⟨c, t.remote⟩ : TunnelFlow)))) n →
      e.2.1 = t := by
  intro items
  induction items with
  | nil => intro n e h; simp [run_tunnel_spawned] at h
  | cons r rest ih =>
    intro n e h
    cases r with
    | ok c =>
      simp only [List.map_cons, Except.map, run_tunnel_spawned, List.mem_cons] at h
      rcases h with h | h
      · subst h; rfl
      · exact ih (n + 1) e h
    | error s =>
      simp [Except.map, run_tunnel_spawned] at h

/- ### Claims -/

/-- Claim C1 is false as stated: an `Err` item yielded by the adapter
stream makes the `while let Some(Ok(..))` pattern in `run_tunnel` fail,
ending the accept loop, so the subsequent successful flow (connection
handle 7) is never spawned. -/
theorem run_tunnel_error_item_cex :
    ¬ ∃ e ∈ run_tunnel_spawned sampleTunnel
        [Except.error "accept failed",
         Except.ok ⟨7, (UrlHost.domain "example.com", 443)⟩] 0,
      e.2.2 = 7 := by decide

/-- Claim C1 (amended): an `Err` item from the adapter stream ends
`run_tunnel`'s accept loop with nothing spawned for the remaining
items; a successful item is spawned under a fresh request id with the
loop continuing over the rest; and a spawned flow whose
`connect_to_server` fails has its error logged paired with that flow's
request id, without affecting the spawn list. -/
theorem run_tunnel_per_flow_errors (t : LocalToRemote) (emsg : String)
    (rest : List (Except String TunnelFlow)) (f : TunnelFlow) (n : Nat)
    (connect : Nat → LocalToRemote → Nat → Except String Unit) (msg : String)
    (hfail : connect n { t with remote := f.dest } f.conn = Except.error msg) :
    run_tunnel_spawned t (Except.error emsg :: rest) n = []
  ∧ run_tunnel_spawned t (Except.ok f :: rest) n
      = (n, { t with remote := f.dest }, f.conn) :: run_tunnel_spawned t rest (n + 1)
  ∧ (n, msg) ∈ run_tunnel_logs connect (run_tunnel_spawned t (Except.ok f :: rest) n) := by
  refine ⟨rfl, rfl, ?_⟩
  simp [run_tunnel_spawned, run_tunnel_logs, hfail]

/-- Witness for `run_tunnel_per_flow_errors` at a concrete stream and a
connect outcome that fails with "dial failed". -/
theorem run_tunnel_per_flow_errors_witness :
    run_tunnel_spawned sampleTunnel [Except.error "accept failed"] 0 = []
  ∧ run_tunnel_spawned sampleTunnel
        [Except.ok ⟨7, (UrlHost.domain "example.com", 443)⟩] 0
      = (0, { sampleTunnel with remote := (UrlHost.domain "example.com", 443) }, 7)
          :: run_tunnel_spawned sampleTunnel [] 1
  ∧ (0, "dial failed") ∈ run_tunnel_logs (fun _ _ _ => Except.error "dial failed")
      (run_tunnel_spawned sampleTunnel
        [Except.ok ⟨7, (UrlHost.domain "example.com", 443)⟩] 0) :=
  run_tunnel_per_flow_errors sampleTunnel "accept failed" []
    ⟨7, (UrlHost.domain "example.com", 443)⟩ 0
    (fun _ _ _ => Except.error "dial failed") "dial failed" rfl

/-- Claim C5 (code bug): the program's own `-L` help text documents
`socks5://1212`, but `parse_tunnel_arg` rejects every port-only SOCKS5
argument with `InvalidInput` because `parse_local_bind` requires a
colon after the bind part.  The slice at offset 9 itself consumes
exactly the 9-character `socks5://` scheme (first conjunct shows the
remainder is precisely the bind form), and the `BIND:PORT` form works
as the claim describes, including `socket_so_mark`. -/
theorem socks5_port_only_rejected :
    parse_tunnel_arg "socks5://1212"
      = RunResult.err ⟨IoErrorKind.invalidInput, "cannot parse IPv4 bind from 1212"⟩
  ∧ sliceFrom "socks5://1212" 9 = some "1212"
  ∧ parse_tunnel_arg "socks5://127.0.0.1:1080?socket_so_mark=2"
      = RunResult.ok ⟨some 2, LocalProtocol.socks5, ⟨IpAddr.v4 127 0 0 1, 1080⟩,
          (UrlHost.domain "0.0.0.0", 0)⟩ := by
  refine ⟨by decide, by decide, by decide⟩

/-- Claim C7: for TCP, UDP and STDIO tunnels the adapter stream pairs
every successful flow with the tunnel's configured remote, so the
cloned spec `run_tunnel` hands to `connect_to_server` is the original
spec unchanged; only the SOCKS5 adapter propagates a per-flow
destination into the cloned spec. -/
theorem per_flow_dest_is_configured_remote (t : LocalToRemote)
    (accepts : List (Except String Nat)) (conn n : Nat) :
    (∀ e ∈ run_tunnel_spawned t (tcp_adapter t.remote accepts) n, e.2.1 = t)
  ∧ (∀ e ∈ run_tunnel_spawned t (udp_adapter t.remote accepts) n, e.2.1 = t)
  ∧ (∀ e ∈ run_tunnel_spawned t (stdio_adapter t.remote conn) n, e.2.1 = t)
  ∧ ∀ (c : Nat) (d : UrlHost × Nat)
      (rest : List (Except String (Nat × (UrlHost × Nat)))),
      run_tunnel_spawned t (socks5_adapter (Except.ok (c, d) :: rest)) n
        = (n, { t with remote := d }, c)
            :: run_tunnel_spawned t (socks5_adapter rest) (n + 1) := by
  refine ⟨run_tunnel_spawned_fixed t accepts n, run_tunnel_spawned_fixed t accepts n, ?_, ?_⟩
  · intro e he
    simp only [stdio_adapter, run_tunnel_spawned, List.mem_singleton] at he
    subst he; rfl
  · intro c d rest
    rfl

/-- Witness for `per_flow_dest_is_configured_remote` at a concrete
spawned entry of a TCP tunnel. -/
theorem per_flow_dest_is_configured_remote_witness :
    ((0, sampleTunnel, 5) : Nat × LocalToRemote × Nat).2.1 = sampleTunnel :=
  (per_flow_dest_is_configured_remote sampleTunnel [Except.ok 5] 9 0).1
    (0, sampleTunnel, 5) (by decide)

/-- Claim C9: for a STDIO tunnel the client passes `run_tunnel` the
single-item stream `stream::once(Ok((server, tunnel.remote)))`, whose
only flow carries the statically configured remote; the loop spawns
exactly that one flow with the spec unchanged. -/
theorem stdio_stream_single_flow (t : LocalToRemote) (conn n : Nat) :
    stdio_adapter t.remote conn = [Except.ok ⟨conn, t.remote⟩]
  ∧ run_tunnel_spawned t (stdio_adapter t.remote conn) n = [(n, t, conn)] :=
  ⟨rfl, rfl⟩

/-- Claim C10 is false as stated: the 8-byte argument `"aaaaaaaa"` does
not start with `tcp://` or `udp://`, yet `parse_tunnel_arg` returns the
`InvalidInput` error rather than panicking (`&arg[..8]` is in range for
a length-8 string). -/
theorem parse_tunnel_arg_eight_byte_cex :
    parse_tunnel_arg "aaaaaaaa"
      = RunResult.err
          ⟨IoErrorKind.invalidInput, "Invalid local protocol for tunnel aaaaaaaa"⟩
  ∧ parse_tunnel_arg "aaaaaaaa" ≠ RunResult.panicked := by
  refine ⟨by decide, by decide⟩

/-- Claim C2: for a `udp://` tunnel argument, the parsed `Udp` timeout
is `None` when the options carry `timeout_sec=0`, `Some(N)` seconds
when they carry `timeout_sec=N` with `N > 0`, and the default
`Some(30)` seconds when no `timeout_sec` option is present. -/
theorem udp_timeout_option (arg : String) (bnd : SocketAddr) (remaining : String)
    (dest_host : UrlHost) (dest_port : Nat) (opts : List (String × String))
    (h6 : sliceTo arg 6 = some "udp://")
    (hb : parse_local_bind (dropStr arg 6) = Except.ok (bnd, remaining))
    (hd : parse_tunnel_dest remaining = Except.ok (dest_host, dest_port, opts)) :
    (optGet opts "timeout_sec" = none →
      parse_tunnel_arg arg = RunResult.ok
        ⟨(optGet opts "socket_so_mark").bind parseI32Str,
         LocalProtocol.udp (some 30), bnd, (dest_host, dest_port)⟩)
  ∧ (∀ s, optGet opts "timeout_sec" = some s → parseU64Str s = some 0 →
      parse_tunnel_arg arg = RunResult.ok
        ⟨(optGet opts "socket_so_mark").bind parseI32Str,
         LocalProtocol.udp none, bnd, (dest_host, dest_port)⟩)
  ∧ (∀ s k, optGet opts "timeout_sec" = some s → parseU64Str s = some k → 0 < k →
      parse_tunnel_arg arg = RunResult.ok
        ⟨(optGet opts "socket_so_mark").bind parseI32Str,
         LocalProtocol.udp (some k), bnd, (dest_host, dest_port)⟩) := by
  have base : parse_tunnel_arg arg = RunResult.ok
      ⟨(optGet opts "socket_so_mark").bind parseI32Str,
       LocalProtocol.udp ((((optGet opts "timeout_sec").bind parseU64Str).map
           (fun d => if d = 0 then none else some d)).getD (some 30)),
       bnd, (dest_host, dest_port)⟩ := by
    unfold parse_tunnel_arg
    rw [h6]
    simp [hb, hd]
  refine ⟨?_, ?_, ?_⟩
  · intro h
    rw [base]; simp [h]
  · intro s hs h0
    rw [base]; simp [hs, h0]
  · intro s k hs hk hpos
    rw [base]; simp [hs, hk, Nat.pos_iff_ne_zero.mp hpos]

/-- Witness for `udp_timeout_option` at the three concrete arguments
with `timeout_sec` absent, zero, and positive. -/
theorem udp_timeout_option_witness :
    parse_tunnel_arg "udp://1212:1.1.1.1:53"
      = RunResult.ok ⟨none, LocalProtocol.udp (some 30),
          ⟨IpAddr.v4 127 0 0 1, 1212⟩, (UrlHost.domain "1.1.1.1", 53)⟩
  ∧ parse_tunnel_arg "udp://1212:1.1.1.1:53?timeout_sec=0"
      = RunResult.ok ⟨none, LocalProtocol.udp none,
          ⟨IpAddr.v4 127 0 0 1, 1212⟩, (UrlHost.domain "1.1.1.1", 53)⟩
  ∧ parse_tunnel_arg "udp://1212:1.1.1.1:53?timeout_sec=10"
      = RunResult.ok ⟨none, LocalProtocol.udp (some 10),
          ⟨IpAddr.v4 127 0 0 1, 1212⟩, (UrlHost.domain "1.1.1.1", 53)⟩ :=
  ⟨(udp_timeout_option "udp://1212:1.1.1.1:53" ⟨IpAddr.v4 127 0 0 1, 1212⟩
      "1.1.1.1:53" (UrlHost.domain "1.1.1.1") 53 []
      (by decide) (by decide) (by decide)).1 (by decide),
   (udp_timeout_option "udp://1212:1.1.1.1:53?timeout_sec=0"
      ⟨IpAddr.v4 127 0 0 1, 1212⟩ "1.1.1.1:53?timeout_sec=0"
      (UrlHost.domain "1.1.1.1") 53 [("timeout_sec", "0")]
      (by decide) (by decide) (by decide)).2.1 "0" (by decide) (by decide),
   (udp_timeout_option "udp://1212:1.1.1.1:53?timeout_sec=10"
      ⟨IpAddr.v4 127 0 0 1, 1212⟩ "1.1.1.1:53?timeout_sec=10"
      (UrlHost.domain "1.1.1.1") 53 [("timeout_sec", "10")]
      (by decide) (by decide) (by decide)).2.2 "10" 10 (by decide) (by decide)
      (by decide)⟩

/-- Claim C8: every `stdio://` tunnel argument that parses successfully
yields `local_protocol = Stdio` and the sentinel bind `0.0.0.0:0`. -/
theorem stdio_local_sentinel (arg : String)
    (dest_host : UrlHost) (dest_port : Nat) (opts : List (String × String))
    (h8 : sliceTo arg 8 = some "stdio://")
    (hd : parse_tunnel_dest (dropStr arg 8) = Except.ok (dest_host, dest_port, opts)) :
    parse_tunnel_arg arg = RunResult.ok
      ⟨(optGet opts "socket_so_mark").bind parseI32Str,
       LocalProtocol.stdio, ⟨IpAddr.v4 0 0 0 0, 0⟩, (dest_host, dest_port)⟩ := by
  obtain ⟨h6, _⟩ := sliceTo_six_of_eight arg _ h8
  have h6' : sliceTo arg 6 = some "stdio:" := by
    rw [h6]; decide
  unfold parse_tunnel_arg
  rw [h6']
  simp [h8, hd]

/-- Witness for `stdio_local_sentinel` at `stdio://google.com:443`. -/
theorem stdio_local_sentinel_witness :
    parse_tunnel_arg "stdio://google.com:443"
      = RunResult.ok ⟨none, LocalProtocol.stdio, ⟨IpAddr.v4 0 0 0 0, 0⟩,
          (UrlHost.domain "google.com", 443)⟩ :=
  stdio_local_sentinel "stdio://google.com:443" (UrlHost.domain "google.com") 443 []
    (by decide) (by decide)

/-- Claim C3: a URL accepted by `parse_server_url` has scheme `ws` or
`wss` and a host; the client's TLS setting is `Some` exactly for `wss`
and `None` exactly for `ws` (and in particular never reaches the panic
arm); `websocket_scheme` returns `wss` iff TLS is set and `ws` iff it
is not; and `parse_server_url` rejects any other scheme, and any
hostless URL, with an `InvalidInput` error. -/
theorem client_tls_scheme_invariant (pu : Option UrlModel) (arg : String)
    (url : UrlModel) (sni : Option DnsName) (verify : Bool)
    (hacc : parse_server_url pu arg = Except.ok url) :
    ((url.scheme = "ws" ∨ url.scheme = "wss") ∧ url.host ≠ none)
  ∧ client_tls url.scheme sni verify ≠ RunResult.panicked
  ∧ (url.scheme = "wss" →
      client_tls url.scheme sni verify = RunResult.ok (some ⟨sni, verify⟩))
  ∧ (url.scheme = "ws" → client_tls url.scheme sni verify = RunResult.ok none)
  ∧ (∀ cfg : WsClientConfig,
      (WsClientConfig.websocket_scheme cfg = "wss" ↔ cfg.tls ≠ none)
    ∧ (WsClientConfig.websocket_scheme cfg = "ws" ↔ cfg.tls = none))
  ∧ (∀ u : UrlModel, u.scheme ≠ "ws" → u.scheme ≠ "wss" →
      parse_server_url (some u) arg
        = Except.error ⟨IoErrorKind.invalidInput, "invalid scheme " ++ u.scheme⟩)
  ∧ (∀ u : UrlModel, u.host = none →
      ∃ e, parse_server_url (some u) arg = Except.error e
        ∧ e.kind = IoErrorKind.invalidInput) := by
  have hurl : (url.scheme = "ws" ∨ url.scheme = "wss") ∧ url.host ≠ none := by
    cases pu with
    | none => simp [parse_server_url] at hacc
    | some u =>
      simp only [parse_server_url] at hacc
      by_cases h1 : u.scheme ≠ "ws" ∧ u.scheme ≠ "wss"
      · rw [if_pos h1] at hacc; exact absurd hacc (by simp)
      · rw [if_neg h1] at hacc
        by_cases h2 : u.host = none
        · rw [if_pos h2] at hacc; exact absurd hacc (by simp)
        · rw [if_neg h2] at hacc
          injection hacc with hu
          subst hu
          push_neg at h1
          refine ⟨?_, h2⟩
          by_cases hws : u.scheme = "ws"
          · exact Or.inl hws
          · exact Or.inr (h1 hws)
  refine ⟨hurl, ?_, ?_, ?_, ?_, ?_, ?_⟩
  · rcases hurl.1 with h | h <;> simp [client_tls, h]
  · intro h; simp [client_tls, h]
  · intro h; simp [client_tls, h]
  · intro cfg
    cases htls : cfg.tls with
    | none => simp [WsClientConfig.websocket_scheme, htls]
    | some t => simp [WsClientConfig.websocket_scheme, htls]
  · intro u h1 h2
    simp only [parse_server_url]
    rw [if_pos ⟨h1, h2⟩]
  · intro u hh
    simp only [parse_server_url]
    by_cases h1 : u.scheme ≠ "ws" ∧ u.scheme ≠ "wss"
    · rw [if_pos h1]
      refine ⟨⟨IoErrorKind.invalidInput, "invalid scheme " ++ u.scheme⟩, rfl, ?_⟩
      rfl
    · rw [if_neg h1, if_pos hh]
      refine ⟨⟨IoErrorKind.invalidInput, "invalid server host " ++ arg⟩, rfl, ?_⟩
      rfl

/-- Witness for `client_tls_scheme_invariant` at a concrete accepted
`wss` URL and a concrete rejected `http` URL. -/
theorem client_tls_scheme_invariant_witness :
    client_tls "wss" none false = RunResult.ok (some ⟨none, false⟩)
  ∧ parse_server_url
      (some ⟨"http", some (UrlHost.domain "example.com"), none⟩) "wss://example.com"
      = Except.error ⟨IoErrorKind.invalidInput, "invalid scheme http"⟩ :=
  have h := client_tls_scheme_invariant
    (some ⟨"wss", some (UrlHost.domain "example.com"), some 443⟩)
    "wss://example.com" ⟨"wss", some (UrlHost.domain "example.com"), some 443⟩
    none false (by decide)
  ⟨h.2.2.1 rfl,
   h.2.2.2.2.2.1 ⟨"http", some (UrlHost.domain "example.com"), none⟩
     (by decide) (by decide)⟩

/-- Claim C4: `tls_server_name` returns the SNI override as a DNS name
when TLS is set with an override; otherwise the domain host as a DNS
name (through the rustls conversion the source `unwrap`s); otherwise
the IPv4 or IPv6 literal as an IP-address server name. -/
theorem tls_server_name_selection (cfg : WsClientConfig) :
    (∀ t sni, cfg.tls = some t → t.tls_sni_override = some sni →
      WsClientConfig.tls_server_name cfg = RunResult.ok (ServerName.dnsName sni))
  ∧ (∀ d dn, cfg.tls.bind (fun tls => tls.tls_sni_override) = none →
      cfg.remote_addr.1 = UrlHost.domain d → dns_name_try_from d = some dn →
      WsClientConfig.tls_server_name cfg = RunResult.ok (ServerName.dnsName dn))
  ∧ (∀ a b c d, cfg.tls.bind (fun tls => tls.tls_sni_override) = none →
      cfg.remote_addr.1 = UrlHost.ipv4 a b c d →
      WsClientConfig.tls_server_name cfg
        = RunResult.ok (ServerName.ipAddress (IpAddr.v4 a b c d)))
  ∧ (∀ segs, cfg.tls.bind (fun tls => tls.tls_sni_override) = none →
      cfg.remote_addr.1 = UrlHost.ipv6 segs →
      WsClientConfig.tls_server_name cfg
        = RunResult.ok (ServerName.ipAddress (IpAddr.v6 segs))) := by
  refine ⟨?_, ?_, ?_, ?_⟩
  · intro t sni ht hs
    simp [WsClientConfig.tls_server_name, ht, hs]
  · intro d dn hb hdom htry
    simp [WsClientConfig.tls_server_name, hb, hdom, htry]
  · intro a b c d hb hdom
    simp [WsClientConfig.tls_server_name, hb, hdom]
  · intro segs hb hdom
    simp [WsClientConfig.tls_server_name, hb, hdom]

/-- Witness for `tls_server_name_selection` at configurations covering
the override, domain-host and IP-host cases. -/
theorem tls_server_name_selection_witness :
    WsClientConfig.tls_server_name
      ⟨(UrlHost.domain "example.com", 443), some ⟨some ⟨"x.example"⟩, false⟩, 10, 30, false⟩
      = RunResult.ok (ServerName.dnsName ⟨"x.example"⟩)
  ∧ WsClientConfig.tls_server_name
      ⟨(UrlHost.domain "example.com", 443), some ⟨none, true⟩, 10, 30, false⟩
      = RunResult.ok (ServerName.dnsName ⟨"example.com"⟩)
  ∧ WsClientConfig.tls_server_name
      ⟨(UrlHost.ipv4 1 1 1 1, 443), none, 10, 30, false⟩
      = RunResult.ok (ServerName.ipAddress (IpAddr.v4 1 1 1 1)) :=
  ⟨(tls_server_name_selection _).1 ⟨some ⟨"x.example"⟩, false⟩ ⟨"x.example"⟩ rfl rfl,
   (tls_server_name_selection _).2.1 "example.com" ⟨"example.com"⟩ rfl rfl (by decide),
   (tls_server_name_selection _).2.2.1 1 1 1 1 rfl rfl⟩

/-- Claim C6: when only a port stands before the destination,
`parse_local_bind` falls back to the default bind address `127.0.0.1`
with that port (the port text is not a dotted IPv4 literal, so the
split-off prefix fails IPv4 parsing and the whole argument is re-read
as port-first); and an argument beginning with a bracketed IPv6
literal binds that IPv6 address at the port that follows the bracket. -/
theorem local_bind_default_and_ipv6 (p rest : String) (port : Nat)
    (hne : p.data ≠ []) (hnc : ':' ∉ p.data) (hnq : '?' ∉ p.data) (hnb : '[' ∉ p.data)
    (hip : ipv4FromStr p = none) (hport : parseU16 p = some port)
    (six p2 rest2 : String) (segs : List Nat) (port2 : Nat)
    (hbr : ']' ∉ six.data) (hv6 : ipv6FromStr six = some segs)
    (hne2 : p2.data ≠ []) (hnc2 : ':' ∉ p2.data) (hnq2 : '?' ∉ p2.data)
    (hport2 : parseU16 p2 = some port2) :
    parse_local_bind (p ++ ":" ++ rest)
      = Except.ok (⟨IpAddr.v4 127 0 0 1, port⟩, rest)
  ∧ parse_local_bind ("[" ++ six ++ "]:" ++ p2 ++ ":" ++ rest2)
      = Except.ok (⟨IpAddr.v6 segs, port2⟩, rest2) := by
  constructor
  · obtain ⟨c, cs, hc⟩ := List.exists_cons_of_ne_nil hne
    have hcmem : c ∈ p.data := by rw [hc]; exact List.mem_cons_self c cs
    have hdata : (p ++ ":" ++ rest).data = p.data ++ ':' :: rest.data := by
      rw [strDataAppend, strDataAppend, show (":" : String).data = [':'] from rfl]
      simp
    have hcond : ¬ (p.data.head? = some '[') := by
      rw [hc]
      intro h
      injection h with h
      exact hnb (h ▸ hcmem)
    have hcond' : ¬ ((p.data ++ ':' :: rest.data).head? = some '[') := by
      rw [hc]
      intro h
      injection h with h
      exact hnb (h ▸ hcmem)
    have hsplit := splitOnceChars_append p.data ':' rest.data hnc
    have htrim : trimLeadChar (p.data ++ ':' :: rest.data) ':'
        = p.data ++ ':' :: rest.data := by
      apply trimLeadChar_of_head_ne
      rw [hc]
      intro h
      injection h with h
      exact hnc (h ▸ hcmem)
    have hany : splitOnceAnyChars (p.data ++ ':' :: rest.data) [':', '?']
        = some (p.data, rest.data) := by
      apply splitOnceAnyChars_append
      · intro x hx hmem
        simp only [List.mem_cons, List.not_mem_nil, or_false] at hmem
        rcases hmem with h | h
        · subst h; exact hnc hx
        · subst h; exact hnq hx
      · simp
    have hu16 : parseU16Chars p.data = some port := hport
    simp [parse_local_bind, hdata, hcond, hcond', hsplit, stringEta, hip, htrim, hany,
      hu16]
  · obtain ⟨c2, cs2, hc2⟩ := List.exists_cons_of_ne_nil hne2
    have hcmem2 : c2 ∈ p2.data := by rw [hc2]; exact List.mem_cons_self c2 cs2
    have hdata2 : ("[" ++ six ++ "]:" ++ p2 ++ ":" ++ rest2).data
        = ('[' :: six.data) ++ ']' :: ':' :: (p2.data ++ ':' :: rest2.data) := by
      simp only [strDataAppend]
      simp
    have hnotin : ']' ∉ ('[' :: six.data) := by
      intro h
      rcases List.mem_cons.mp h with h | h
      · exact absurd h (by decide)
      · exact hbr h
    have hsplit2 := splitOnceChars_append ('[' :: six.data) ']'
      (':' :: (p2.data ++ ':' :: rest2.data)) hnotin
    simp only [List.cons_append] at hsplit2
    have htrim2 : trimLeadChar (p2.data ++ ':' :: rest2.data) ':'
        = p2.data ++ ':' :: rest2.data := by
      apply trimLeadChar_of_head_ne
      rw [hc2]
      intro h
      injection h with h
      exact hnc2 (h ▸ hcmem2)
    have hany2 : splitOnceAnyChars (p2.data ++ ':' :: rest2.data) [':', '?']
        = some (p2.data, rest2.data) := by
      apply splitOnceAnyChars_append
      · intro x hx hmem
        simp only [List.mem_cons, List.not_mem_nil, or_false] at hmem
        rcases hmem with h | h
        · subst h; exact hnc2 hx
        · subst h; exact hnq2 hx
      · simp
    have hu16b : parseU16Chars p2.data = some port2 := hport2
    simp [parse_local_bind, hdata2, hsplit2, hv6, stringEta, trimLeadChar,
      htrim2, hany2, hu16b]

/-- Witness for `local_bind_default_and_ipv6` at the concrete
arguments `1212:google.com:443` and `[::1]:8080:host:443`. -/
theorem local_bind_default_and_ipv6_witness :
    parse_local_bind "1212:google.com:443"
      = Except.ok (⟨IpAddr.v4 127 0 0 1, 1212⟩, "google.com:443")
  ∧ parse_local_bind "[::1]:8080:host:443"
      = Except.ok (⟨IpAddr.v6 [0, 0, 0, 0, 0, 0, 0, 1], 8080⟩, "host:443") :=
  local_bind_default_and_ipv6 "1212" "google.com:443" 1212
    (by decide) (by decide) (by decide) (by decide) (by decide) (by decide)
    "::1" "8080" "host:443" [0, 0, 0, 0, 0, 0, 0, 1] 8080
    (by decide) (by decide) (by decide) (by decide) (by decide) (by decide)

/-- Claim C10 (amended): `parse_tunnel_arg` panics on every argument
shorter than 6 characters (`&arg[..6]` out of range), on every 6- or
7-character argument that does not start with `tcp://` or `udp://`
(`&arg[..8]` out of range), and on the exact 8-character argument
`socks5:/` (`&arg[9..]` out of range); an argument of 8 characters or
more that matches no scheme prefix instead returns the `InvalidInput`
error. -/
theorem parse_tunnel_arg_panic_domain :
    (∀ arg : String, arg.data.length < 6 → parse_tunnel_arg arg = RunResult.panicked)
  ∧ (∀ arg : String, 6 ≤ arg.data.length → arg.data.length < 8 →
      takeStr arg 6 ≠ "tcp://" → takeStr arg 6 ≠ "udp://" →
      parse_tunnel_arg arg = RunResult.panicked)
  ∧ parse_tunnel_arg "socks5:/" = RunResult.panicked
  ∧ (∀ arg : String, 8 ≤ arg.data.length →
      takeStr arg 6 ≠ "tcp://" → takeStr arg 6 ≠ "udp://" →
      takeStr arg 8 ≠ "socks5:/" → takeStr arg 8 ≠ "stdio://" →
      parse_tunnel_arg arg = RunResult.err
        ⟨IoErrorKind.invalidInput, "Invalid local protocol for tunnel " ++ arg⟩) := by
  refine ⟨?_, ?_, by decide, ?_⟩
  · intro arg h
    unfold parse_tunnel_arg sliceTo
    rw [if_neg (by omega)]
  · intro arg h6 h8 ht hu
    unfold parse_tunnel_arg sliceTo
    rw [if_pos h6]
    simp only [if_neg ht, if_neg hu]
    rw [if_neg (by omega)]
  · intro arg h8 ht hu hs hd
    unfold parse_tunnel_arg sliceTo
    rw [if_pos (by omega)]
    simp only [if_neg ht, if_neg hu]
    rw [if_pos h8]
    simp only [if_neg hs, if_neg hd]

/-- Witness for `parse_tunnel_arg_panic_domain` at a 3-character, a
7-character and an 8-character argument. -/
theorem parse_tunnel_arg_panic_domain_witness :
    parse_tunnel_arg "abc" = RunResult.panicked
  ∧ parse_tunnel_arg "abcdefg" = RunResult.panicked
  ∧ parse_tunnel_arg "abcdefgh" = RunResult.err
      ⟨IoErrorKind.invalidInput, "Invalid local protocol for tunnel abcdefgh"⟩ :=
  ⟨parse_tunnel_arg_panic_domain.1 "abc" (by decide),
   parse_tunnel_arg_panic_domain.2.1 "abcdefg" (by decide) (by decide)
     (by decide) (by decide),
   parse_tunnel_arg_panic_domain.2.2.2 "abcdefgh" (by decide) (by decide)
     (by decide) (by decide) (by decide)⟩
